import Mathlib

/-!
Verification of the Document-Translator repository's core pipeline
(`src/translator.py`, `src/document_processor.py`, `src/utils.py`).

Python strings are modelled as `List Char`; text operations
(`str.strip`, `str.split`, `str.lower`, `re.sub`, …) are re-implemented
below with the same semantics (restricted to the ASCII-ish character set
the repository handles).  External libraries (deep-translator backends,
langdetect, PyMuPDF/pypdf, python-docx/docx2python, byte decoders, FPDF)
are modelled as oracle functions returning `Except`, mirroring the fact
that any call into them may raise a Python exception.
-/

namespace DocTrans

/-- Python `\s` / `str.isspace` on the ASCII range: space, tab, newline,
carriage return, vertical tab, form feed. -/
def pyIsSpace (c : Char) : Bool :=
  c = ' ' || c = '\t' || c = '\n' || c = '\r' || c = '\x0b' || c = '\x0c'

/-- Right-trim: removes trailing characters satisfying `pyIsSpace`
(the right half of Python `str.strip()`). -/
def rstrip : List Char → List Char
  | [] => []
  | c :: cs =>
    let r := rstrip cs
    if r.isEmpty && pyIsSpace c then [] else c :: r

/-- Python `str.strip()`: removes leading and trailing whitespace. -/
def pyStrip (l : List Char) : List Char :=
  (rstrip l).dropWhile pyIsSpace

/-- Python `str.split()` with no separator: splits on runs of whitespace,
discarding empty pieces (so leading/trailing whitespace is ignored). -/
def pyWords : List Char → List (List Char)
  | [] => []
  | c :: cs =>
    let ws := pyWords cs
    if pyIsSpace c then ws
    else
      match cs with
      | [] => [[c]]
      | c2 :: _ =>
        if pyIsSpace c2 then [c] :: ws
        else
          match ws with
          | [] => [[c]]  -- unreachable: `pyWords cs` is nonempty when `cs` starts with a non-space
          | w :: rest => (c :: w) :: rest

/-- `' '.join(words)`, as used by `_split_text_into_chunks`. -/
def spaceJoin (ws : List (List Char)) : List Char :=
  List.intercalate [' '] ws

/-- The greedy word-accumulation loop of `_split_text_into_chunks`
(translator.py lines 249-267): `currentChunk` is Python's `current_chunk`
(a list of words), `currentLength` is `current_length`. -/
def splitLoop (chunkSize : Nat) : List (List Char) → List (List Char) → Nat → List (List Char)
  | [], currentChunk, _ =>
    if currentChunk.isEmpty then [] else [spaceJoin currentChunk]
  | w :: ws, currentChunk, currentLength =>
    let wordLength := w.length + 1  -- +1 for space
    if currentLength + wordLength > chunkSize && !currentChunk.isEmpty then
      spaceJoin currentChunk :: splitLoop chunkSize ws [w] wordLength
    else
      splitLoop chunkSize ws (currentChunk ++ [w]) (currentLength + wordLength)

/-- `DocumentTranslator._split_text_into_chunks` (translator.py lines 244-268). -/
def splitTextIntoChunks (text : List Char) (chunkSize : Nat) : List (List Char) :=
  if text.length ≤ chunkSize then [text]
  else splitLoop chunkSize (pyWords text) [] 0

/-- Length of the longest whitespace-delimited word of a text. -/
def maxWordLength (text : List Char) : Nat :=
  ((pyWords text).map List.length).foldr max 0

/-- `pat` occurs verbatim as a contiguous character run of `t`. -/
def occursContiguously (pat t : List Char) : Bool :=
  (List.range (t.length + 1)).any (fun i => (t.drop i).take pat.length = pat)

/-- A word as produced by `pyWords`: nonempty and whitespace-free. -/
def GoodWord (w : List Char) : Prop :=
  w ≠ [] ∧ ∀ c ∈ w, pyIsSpace c = false

/-- A Python exception, as far as the repository's `except` clauses
distinguish them: `UnicodeDecodeError`, `LangDetectException`, anything else. -/
inductive PyErr where
  | unicodeDecode (msg : String)
  | langDetect (msg : String)
  | exc (msg : String)
deriving DecidableEq, Repr

/-- Python `str(e)` on a modelled exception. -/
def pyErrMsg : PyErr → String
  | .unicodeDecode m => m
  | .langDetect m => m
  | .exc m => m

/-! ### `_clean_text_for_detection` (translator.py lines 270-276)

The two `re.sub` removals are implemented as specialised matchers with
Python `re` semantics (leftmost scan, greedy with backtracking).

URL pattern `http[s]?://(?:[a-zA-Z]|[0-9]|[$-_@.&+]|[!*\\(\\),]|(?:%[0-9a-fA-F][0-9a-fA-F]))+`:
`[$-_@.&+]` is the byte range 0x24-0x5F (plus redundant singletons), so
`%` (0x25) is already a class member and the `%hh` alternative never
fires; the whole pattern is `http[s]?://` followed by a maximal nonempty
run of class characters. -/

def isUrlChar (c : Char) : Bool :=
  c.isAlpha || c.isDigit || (36 ≤ c.toNat && c.toNat ≤ 95) ||
  c = '!' || c = '*' || c = '\\' || c = '(' || c = ')' || c = ','

/-- Length of the URL-regex match starting exactly at the head of `cs`,
if any. -/
def urlMatchLen (cs : List Char) : Option Nat :=
  match cs with
  | 'h' :: 't' :: 't' :: 'p' :: rest =>
    match rest with
    | 's' :: ':' :: '/' :: '/' :: r =>
      let run := (r.takeWhile isUrlChar).length
      if run = 0 then none else some (8 + run)
    | ':' :: '/' :: '/' :: r =>
      let run := (r.takeWhile isUrlChar).length
      if run = 0 then none else some (7 + run)
    | _ => none
  | _ => none

/-- Left-to-right scan of `re.sub(url_pattern, '', text)`; the fuel is an
upper bound on the number of steps (each step consumes at least one
character). -/
def removeUrlsAux : Nat → List Char → List Char
  | 0, cs => cs
  | _ + 1, [] => []
  | fuel + 1, c :: cs =>
    match urlMatchLen (c :: cs) with
    | some n => removeUrlsAux fuel ((c :: cs).drop n)
    | none => c :: removeUrlsAux fuel cs

def removeUrls (cs : List Char) : List Char :=
  removeUrlsAux cs.length cs

/-! Email pattern `\b[A-Za-z0-9._%+-]+@[A-Za-z0-9.-]+\.[A-Z|a-z]{2,}\b`
(inside the class `[A-Z|a-z]`, `|` is a literal). -/

/-- Regex `\w` on the ASCII range. -/
def isWordChar (c : Char) : Bool := c.isAlpha || c.isDigit || c = '_'

def isLocalChar (c : Char) : Bool :=
  c.isAlpha || c.isDigit || c = '.' || c = '_' || c = '%' || c = '+' || c = '-'

def isDomainChar (c : Char) : Bool :=
  c.isAlpha || c.isDigit || c = '.' || c = '-'

def isTldChar (c : Char) : Bool := c.isAlpha || c = '|'

/-- Regex `\b` between the previous character (none at string start) and
the current one. -/
def wordBoundary (prev : Option Char) (c : Char) : Bool :=
  prev.any isWordChar != isWordChar c

/-- Regex `\b` after the last matched character, given the following
character (none at string end). -/
def endBoundary (lastChar : Char) (next : Option Char) : Bool :=
  isWordChar lastChar != next.any isWordChar

/-- Backtracking over the TLD length: `[A-Z|a-z]{2,}` is greedy, giving
back one character at a time (down to 2) until the trailing `\b` holds.
`after` is the text following the dot; the argument is the candidate
length (initially the maximal TLD-class run). -/
def tryTldLen (after : List Char) : Nat → Option Nat
  | n + 2 =>
    match after[n + 1]? with
    | some a => if endBoundary a after[n + 2]? then some (n + 2) else tryTldLen after (n + 1)
    | none => none
  | _ => none

def tryTld (after : List Char) : Option Nat :=
  tryTldLen after ((after.takeWhile isTldChar).length)

/-- Backtracking over the domain length: `[A-Za-z0-9.-]+` is greedy,
giving back characters until a literal `.` plus a valid TLD follows.
`rest` is the text after `@`; the argument is the candidate domain length
(initially the maximal domain-class run).  Returns the number of
characters matched after the `@`. -/
def tryDomainLen (rest : List Char) : Nat → Option Nat
  | 0 => none
  | d + 1 =>
    match rest[d + 1]? with
    | some c =>
      if c = '.' then
        match tryTld (rest.drop (d + 2)) with
        | some tl => some (d + 1 + 1 + tl)
        | none => tryDomainLen rest d
      else tryDomainLen rest d
    | none => tryDomainLen rest d

/-- Length of the email-regex match starting exactly at the head of `cs`
(`prev` is the character before `cs` in the original text, for `\b`).
The local part needs no backtracking: the next pattern atom is the
literal `@`, which is not a local-class character. -/
def emailMatchLen (prev : Option Char) (cs : List Char) : Option Nat :=
  match cs with
  | [] => none
  | c :: _ =>
    if wordBoundary prev c then
      let localRun := (cs.takeWhile isLocalChar).length
      if localRun = 0 then none
      else
        match cs.drop localRun with
        | '@' :: rest =>
          match tryDomainLen rest ((rest.takeWhile isDomainChar).length) with
          | some k => some (localRun + 1 + k)
          | none => none
        | _ => none
    else none

/-- Left-to-right scan of `re.sub(email_pattern, '', text)`, threading the
previous original character for the `\b` tests. -/
def removeEmailsAux : Nat → Option Char → List Char → List Char
  | 0, _, cs => cs
  | _ + 1, _, [] => []
  | fuel + 1, prev, c :: cs =>
    match emailMatchLen prev (c :: cs) with
    | some n => removeEmailsAux fuel ((c :: cs)[n - 1]?) ((c :: cs).drop n)
    | none => c :: removeEmailsAux fuel (some c) cs

def removeEmails (cs : List Char) : List Char :=
  removeEmailsAux cs.length none cs

/-- `re.sub(r'\s+', ' ', text)`: each maximal whitespace run becomes a
single space (right fold: a whitespace character merges with a following
collapsed run). -/
def collapseWhitespace : List Char → List Char
  | [] => []
  | c :: cs =>
    let rest := collapseWhitespace cs
    if pyIsSpace c then
      match rest with
      | ' ' :: ds => ' ' :: ds
      | _ => ' ' :: rest
    else c :: rest

/-- `DocumentTranslator._clean_text_for_detection` (translator.py lines
270-276): strip URLs, then emails, collapse whitespace runs, strip. -/
def cleanTextForDetection (text : List Char) : List Char :=
  pyStrip (collapseWhitespace (removeEmails (removeUrls text)))

/-- Python `round(x, 2)` (half-even float rounding approximated by exact
rational arithmetic rounding; no claim depends on the tie behaviour). -/
def round2 (q : Rat) : Rat :=
  ((round (q * 100) : Int) : Rat) / 100

/-- The `langdetect` calls, modelled as oracles: `detect` returns a best
guess code, `detectLangs` the ranked (language, probability) list. -/
structure DetectOracles where
  detect : List Char → Except PyErr String
  detectLangs : List Char → Except PyErr (List (String × Rat))

/-- `DocumentTranslator._calculate_confidence` (translator.py lines
278-290): first ranked entry matching the detected code, rounded to two
decimals; `0.5` when absent or when `detect_langs` raises. -/
def calculateConfidence (dO : DetectOracles) (text : List Char) (detectedLang : String) : Rat :=
  match dO.detectLangs text with
  | Except.ok probs =>
    match probs.find? (fun p => p.1 == detectedLang) with
    | some p => round2 p.2
    | none => 0.5
  | Except.error _ => 0.5

/-- `self.supported_languages.get(code)` (translator.py lines 24-29). -/
def supportedLanguagesGet (code : String) : Option String :=
  if code = "en" then some "English"
  else if code = "hi" then some "Hindi"
  else if code = "mr" then some "Marathi"
  else if code = "sa" then some "Sanskrit"
  else none

/-- `DocumentTranslator._get_language_name` (translator.py lines 292-301). -/
def getLanguageName (code : String) : String :=
  if code = "en" then "English" else if code = "hi" then "Hindi"
  else if code = "mr" then "Marathi" else if code = "sa" then "Sanskrit"
  else if code = "fr" then "French" else if code = "es" then "Spanish"
  else if code = "de" then "German" else if code = "it" then "Italian"
  else if code = "pt" then "Portuguese" else if code = "ru" then "Russian"
  else if code = "ja" then "Japanese" else if code = "ko" then "Korean"
  else if code = "zh" then "Chinese" else if code = "ar" then "Arabic"
  else if code = "th" then "Thai" else if code = "vi" then "Vietnamese"
  else "Language (" ++ code ++ ")"

/-- `supported_languages.get(detected_lang, self._get_language_name(detected_lang))`
(translator.py lines 74-75). -/
def languageDisplayName (code : String) : String :=
  (supportedLanguagesGet code).getD (getLanguageName code)

/-- The dict returned by `DocumentTranslator.detect_language`. -/
structure DetectionResult where
  language : String
  confidence : Rat
  language_name : String
  error : Option String
deriving DecidableEq, Repr

/-- `DocumentTranslator.detect_language` (translator.py lines 49-99).
The surrounding `try` is modelled by the `Except` results of the oracle
calls; every other step of the body is total. -/
def detectLanguage (dO : DetectOracles) (text : List Char) : DetectionResult :=
  let cleanText := cleanTextForDetection text
  if (pyStrip cleanText).length < 10 then
    { language := "unknown", confidence := 0, language_name := "Unknown",
      error := some "Text too short for reliable detection" }
  else
    match dO.detect cleanText with
    | Except.ok detectedLang =>
      { language := detectedLang,
        confidence := calculateConfidence dO cleanText detectedLang,
        language_name := languageDisplayName detectedLang,
        error := none }
    | Except.error (PyErr.langDetect m) =>
      { language := "unknown", confidence := 0, language_name := "Unknown",
        error := some ("Detection failed: " ++ m) }
    | Except.error (PyErr.unicodeDecode m) =>
      { language := "unknown", confidence := 0, language_name := "Unknown",
        error := some ("Unexpected error: " ++ m) }
    | Except.error (PyErr.exc m) =>
      { language := "unknown", confidence := 0, language_name := "Unknown",
        error := some ("Unexpected error: " ++ m) }

/-- `DocumentTranslator._get_backend_language_code` (translator.py lines
303-307) with the static `language_mappings` table (lines 40-47): only
`'sa'` has per-backend overrides. -/
def getBackendLanguageCode (langCode backend : String) : String :=
  if langCode = "sa" then
    if backend = "google" then "sa"
    else if backend = "microsoft" then "sa"
    else if backend = "libre" then "en"
    else if backend = "mymemory" then "sa"
    else langCode
  else langCode

/-- A translation backend library call: constructing the backend translator
for (source, target) and submitting one chunk, either returning the
translated string or raising.  Arguments: backend name, source code,
target code, chunk. -/
def BackendOracle : Type :=
  String → String → String → List Char → Except String (List Char)

/-- The source code actually handed to the backend by `_translate_chunk`
(translator.py line 221): mapped unless it is `'auto'`. -/
def chunkBackendSource (sourceLang backend : String) : String :=
  if sourceLang ≠ "auto" then getBackendLanguageCode sourceLang backend else sourceLang

/-- The body of the `try` block of `_translate_chunk` (translator.py lines
218-237): code mapping, backend dispatch (unknown names raise
`ValueError`), the backend call, and the falsy-result fallback to the
original chunk. -/
def translateChunkBody (o : BackendOracle) (chunk : List Char)
    (targetLang sourceLang backend : String) : Except String (List Char) :=
  let backendTarget := getBackendLanguageCode targetLang backend
  let backendSource := chunkBackendSource sourceLang backend
  match
    (if backend = "google" then o "google" backendSource backendTarget chunk
     else if backend = "microsoft" then o "microsoft" backendSource backendTarget chunk
     else if backend = "libre" then o "libre" backendSource backendTarget chunk
     else if backend = "mymemory" then o "mymemory" backendSource backendTarget chunk
     else Except.error ("Unsupported backend: " ++ backend)) with
  | Except.ok translated => Except.ok (if translated.isEmpty then chunk else translated)
  | Except.error e => Except.error e

/-- `DocumentTranslator._translate_chunk` (translator.py lines 215-242):
the catch-all `except` returns the original chunk, so the function never
raises. -/
def translateChunk (o : BackendOracle) (chunk : List Char)
    (targetLang sourceLang backend : String) : List Char :=
  match translateChunkBody o chunk targetLang sourceLang backend with
  | Except.ok r => r
  | Except.error _ => chunk

/-- The dict returned by `DocumentTranslator.translate_text` (`note` is the
extra key present only in the no-op branch). -/
structure TranslationResult where
  translated_text : List Char
  source_language : String
  target_language : String
  backend_used : Option String
  chunks_processed : Nat
  error : Option String
  note : Option String
deriving DecidableEq, Repr

/-- Source-language resolution of `translate_text` (translator.py lines
129-135): detect when `'auto'`, falling back to `'en'` on detector error. -/
def resolveSource (dO : DetectOracles) (text : List Char) (sourceLang : String) : String :=
  if sourceLang = "auto" then
    let d := detectLanguage dO text
    if d.error.isSome then "en" else d.language
  else sourceLang

/-- The failover loop of `translate_text` (translator.py lines 161-180).
Because `_translate_chunk` never raises, the `try` body always completes
on the first candidate; the `except ... continue` branch (which would
consult the remaining candidates) is unreachable, and the `none` result
(Python's `backend_success = False`) is unreachable for a nonempty
candidate list. -/
def tryBackends (o : BackendOracle) (chunks : List (List Char))
    (targetLang sourceLang : String) : List String → Option (String × List (List Char))
  | [] => none
  | b :: _ =>
    some (b, chunks.map (fun c => translateChunk o c targetLang sourceLang b))

/-- `DocumentTranslator.translate_text` (translator.py lines 101-213).
The outer catch-all `except` is unreachable in this model: every step of
the body is total (all library calls are inside `_translate_chunk` or
`detect_language`, which catch their own exceptions). -/
def translateText (dO : DetectOracles) (bO : BackendOracle) (text : List Char)
    (targetLang sourceLang backend : String) (chunkSize : Nat) : TranslationResult :=
  if pyStrip text = [] then
    { translated_text := [], source_language := sourceLang, target_language := targetLang,
      backend_used := some backend, chunks_processed := 0,
      error := some "Empty text provided", note := none }
  else
    let resolved := resolveSource dO text sourceLang
    if resolved = targetLang then
      { translated_text := text, source_language := resolved, target_language := targetLang,
        backend_used := some backend, chunks_processed := 1,
        error := none, note := some "No translation needed - same language" }
    else
      let chunks := splitTextIntoChunks text chunkSize
      match tryBackends bO chunks targetLang resolved [backend, "google", "libre", "mymemory"] with
      | none =>
        { translated_text := [], source_language := resolved, target_language := targetLang,
          backend_used := none, chunks_processed := 0,
          error := some "All translation backends failed", note := none }
      | some (backendUsed, translatedChunks) =>
        { translated_text := spaceJoin translatedChunks, source_language := resolved,
          target_language := targetLang, backend_used := some backendUsed,
          chunks_processed := chunks.length, error := none, note := none }

/-! ### Document processor (`src/document_processor.py`)

File input is modelled as raw bytes (`List Nat`); the path/`BytesIO`
`isinstance` branches differ only in how those bytes are obtained. -/

/-- The dict returned by the extraction functions; absent keys are `none`. -/
structure ExtractionResult where
  text : List Char
  pages : Option Nat := none
  lines : Option Nat := none
  paragraphs : Option Nat := none
  tables : Option Nat := none
  method : Option String := none
  error : Option String := none
deriving DecidableEq, Repr

/-- The external extraction libraries: PyMuPDF (`fitz`) and pypdf yield
per-page texts; python-docx yields paragraphs and tables (rows of cells);
docx2python yields the whole document text; `decode enc bytes` is
`bytes.decode(enc)`. -/
structure ExtractOracles where
  fitz : List Nat → Except PyErr (List (List Char))
  pypdf : List Nat → Except PyErr (List (List Char))
  docx : List Nat → Except PyErr (List (List Char) × List (List (List (List Char))))
  docx2python : List Nat → Except PyErr (List Char)
  decode : String → List Nat → Except PyErr (List Char)

/-- `full_text += page_text + "\n\n"` over all pages
(document_processor.py lines 66-71 and 89-99). -/
def pdfConcatPages (pages : List (List Char)) : List Char :=
  (pages.map (fun p => p ++ ['\n', '\n'])).flatten

/-- `DocumentProcessor._extract_pdf_text` (document_processor.py lines
53-115): PyMuPDF first, pypdf on failure, error dict when both fail.
Both success branches return `full_text.strip()`. -/
def extractPdfText (o : ExtractOracles) (b : List Nat) : ExtractionResult :=
  match o.fitz b with
  | Except.ok pages =>
    { text := pyStrip (pdfConcatPages pages), pages := some pages.length,
      method := some "PyMuPDF", error := none }
  | Except.error _ =>
    match o.pypdf b with
    | Except.ok pages =>
      { text := pyStrip (pdfConcatPages pages), pages := some pages.length,
        method := some "pypdf", error := none }
    | Except.error e2 =>
      { text := [], pages := some 0, method := some "none",
        error := some ("PDF extraction failed: " ++ pyErrMsg e2) }

/-- Text assembly of the python-docx branch (document_processor.py lines
130-139): paragraphs each followed by `\n`; then per table, per row, each
cell followed by `\t` and the row by `\n`. -/
def docxJoin (paras : List (List Char)) (tables : List (List (List (List Char)))) : List Char :=
  (paras.map (fun p => p ++ ['\n'])).flatten ++
  (tables.map (fun tb =>
    (tb.map (fun row => (row.map (fun cell => cell ++ ['\t'])).flatten ++ ['\n'])).flatten)).flatten

/-- `DocumentProcessor._extract_docx_text` (document_processor.py lines
117-179): python-docx first (returns `full_text.strip()`), docx2python on
failure (returns `result.text` verbatim, NOT stripped), error dict when
both fail. -/
def extractDocxText (o : ExtractOracles) (b : List Nat) : ExtractionResult :=
  match o.docx b with
  | Except.ok (paras, tables) =>
    { text := pyStrip (docxJoin paras tables), paragraphs := some paras.length,
      tables := some tables.length, method := some "python-docx", error := none }
  | Except.error _ =>
    match o.docx2python b with
    | Except.ok t =>
      { text := t, method := some "docx2python", error := none }
    | Except.error e2 =>
      { text := [], method := some "none",
        error := some ("DOCX extraction failed: " ++ pyErrMsg e2) }

/-- Python universal line-break characters recognised by `str.splitlines`
(the BMP ones; `\r\n` is handled as one break by the splitter itself). -/
def isLineBreak (c : Char) : Bool :=
  c = '\n' || c = '\r' || c = '\x0b' || c = '\x0c' ||
  c = '\x1c' || c = '\x1d' || c = '\x1e' || c = '\x85' || c = '\u2028' || c = '\u2029'

/-- Worker for `str.splitlines`: `cur` is the reversed current line. -/
def splitlinesAux (cur : List Char) : List Char → List (List Char)
  | [] => if cur.isEmpty then [] else [cur.reverse]
  | '\r' :: '\n' :: rest => cur.reverse :: splitlinesAux [] rest
  | c :: rest =>
    if isLineBreak c then cur.reverse :: splitlinesAux [] rest
    else splitlinesAux (c :: cur) rest

/-- Python `str.splitlines()` (used for the `lines` count of the txt
branch; a trailing break adds no empty final line). -/
def pySplitlines (l : List Char) : List (List Char) :=
  splitlinesAux [] l

/-- The `except UnicodeDecodeError` retry loop of `_extract_txt_text`
(document_processor.py lines 200-227): each encoding attempt is guarded
by a bare `except: continue`. -/
def tryEncodings (o : ExtractOracles) (b : List Nat) : List String → ExtractionResult
  | [] =>
    { text := [], method := some "none",
      error := some "Could not decode text file with any encoding" }
  | enc :: rest =>
    match o.decode enc b with
    | Except.ok t =>
      { text := t, lines := some (pySplitlines t).length,
        method := some ("direct-" ++ enc), error := none }
    | Except.error _ => tryEncodings o b rest

/-- `DocumentProcessor._extract_txt_text` (document_processor.py lines
181-235).  Every success branch returns the decoded text verbatim (no
strip). -/
def extractTxtText (o : ExtractOracles) (b : List Nat) : ExtractionResult :=
  match o.decode "utf-8" b with
  | Except.ok t =>
    { text := t, lines := some (pySplitlines t).length,
      method := some "direct", error := none }
  | Except.error (PyErr.unicodeDecode _) =>
    tryEncodings o b ["utf-8", "latin-1", "cp1252", "iso-8859-1"]
  | Except.error e =>
    { text := [], method := some "none",
      error := some ("TXT extraction failed: " ++ pyErrMsg e) }

/-- Python `str.lower()` (ASCII model, which covers the extension tags). -/
def pyLower (s : String) : String :=
  String.mk (s.data.map Char.toLower)

/-- `DocumentProcessor.extract_text` (document_processor.py lines 25-51):
lowercase the extension, dispatch; an unsupported extension raises
`ValueError`, caught by the outer `except` which returns
`{"text": "", "error": str(e), "pages": 0}`.  The sub-extractors are
total (they catch their own exceptions), so the outer `except` fires only
for the `ValueError`. -/
def extractText (o : ExtractOracles) (b : List Nat) (fileExtension : String) : ExtractionResult :=
  let ext := pyLower fileExtension
  if ext = ".pdf" then extractPdfText o b
  else if ext = ".docx" then extractDocxText o b
  else if ext = ".txt" then extractTxtText o b
  else
    { text := [], pages := some 0,
      error := some ("Unsupported file format: " ++ ext) }

/-! ### PDF renderer (`src/utils.py`, `create_translated_pdf`) -/

/-- One FPDF builder call, as issued by `create_translated_pdf`. -/
inductive PdfOp where
  | addPage
  | setFont (family style : String) (size : Nat)
  | cell (w h : Nat) (txt : List Char) (align : String)
  | lnBy (n : Nat)
deriving DecidableEq, Repr

/-- Python `str.split(sep)` with an explicit one-character separator:
keeps empty pieces (`''.split(sep) == ['']`). -/
def pySplitOnChar (sep : Char) : List Char → List (List Char)
  | [] => [[]]
  | c :: rest =>
    if c = sep then [] :: pySplitOnChar sep rest
    else
      match pySplitOnChar sep rest with
      | [] => [[c]]  -- unreachable: the splitter never returns []
      | w :: ws => (c :: w) :: ws

/-- The greedy 80-column wrapping loop for one long line (utils.py lines
150-160): `currentLine` is Python's `current_line`; each flushed row is a
`cell(0, 6, current_line.strip(), ln=True)`. -/
def wrapLineAux : List (List Char) → List Char → List PdfOp
  | [], currentLine =>
    if currentLine.isEmpty then [] else [PdfOp.cell 0 6 (pyStrip currentLine) ""]
  | w :: ws, currentLine =>
    if (currentLine ++ w ++ [' ']).length > 80 then
      (if currentLine.isEmpty then [] else [PdfOp.cell 0 6 (pyStrip currentLine) ""]) ++
        wrapLineAux ws (w ++ [' '])
    else
      wrapLineAux ws (currentLine ++ w ++ [' '])

/-- FPDF calls emitted for one line of the body (utils.py lines 146-164):
blank lines become `ln(3)`, lines over 80 characters are word-wrapped,
short lines become one cell. -/
def lineOps (line : List Char) : List PdfOp :=
  if (pyStrip line).isEmpty then [PdfOp.lnBy 3]
  else if line.length > 80 then wrapLineAux (pySplitOnChar ' ' line) []
  else [PdfOp.cell 0 6 line ""]

/-- The full FPDF call sequence of the `try` block of
`create_translated_pdf` (utils.py lines 127-167); `nowStr` stands for
`datetime.now().strftime(...)`. -/
def mainPdfScript (originalFilename translatedText : List Char)
    (sourceLang targetLang nowStr : String) : List PdfOp :=
  [PdfOp.addPage, PdfOp.setFont "Arial" "B" 16,
   PdfOp.cell 0 10 (("Translation: ").toList ++ originalFilename) "C",
   PdfOp.lnBy 5, PdfOp.setFont "Arial" "I" 10,
   PdfOp.cell 0 5 (("Translated from ").toList ++ sourceLang.toList ++
     (" to ").toList ++ targetLang.toList) "",
   PdfOp.cell 0 5 (("Generated on: ").toList ++ nowStr.toList) "",
   PdfOp.lnBy 10, PdfOp.setFont "Arial" "" 12] ++
  ((pySplitOnChar '\n' translatedText).map lineOps).flatten

/-- The FPDF call sequence of the `except` block (utils.py lines 172-179):
the minimal one-page error document naming the failure. -/
def errorPdfScript (msg : String) : List PdfOp :=
  [PdfOp.addPage, PdfOp.setFont "Arial" "B" 16,
   PdfOp.cell 0 10 ("Translation Error").toList "C",
   PdfOp.setFont "Arial" "" 12,
   PdfOp.cell 0 10 (("Error creating translated PDF: " ++ msg).toList) ""]

/-- `DocumentUtils.create_translated_pdf` (utils.py lines 111-179): run
the main script through the FPDF library (modelled as an oracle `render`
from a call sequence to output bytes, which may raise); on failure,
render the error document instead.  The result is `Except` because the
`except` block itself calls the library again. -/
def createTranslatedPdf (render : List PdfOp → Except PyErr (List Nat))
    (originalFilename translatedText : List Char)
    (sourceLang targetLang nowStr : String) : Except PyErr (List Nat) :=
  match render (mainPdfScript originalFilename translatedText sourceLang targetLang nowStr) with
  | Except.ok bs => Except.ok bs
  | Except.error e => render (errorPdfScript (pyErrMsg e))

/-! ### Concrete fixtures for witnesses and counterexamples -/

/-- Detector oracles that always raise (never consulted in the scenarios
below, which pass an explicit source language). -/
def trivialDetectOracles : DetectOracles :=
  ⟨fun _ => Except.error (PyErr.langDetect "detector unavailable"),
   fun _ => Except.error (PyErr.langDetect "detector unavailable")⟩

/-- Backend set in which `google` always succeeds (prepending `G`) and
every other backend always raises. -/
def cexBackendOracle : BackendOracle :=
  fun backend _ _ chunk =>
    if backend = "google" then Except.ok ('G' :: chunk)
    else Except.error "backend raised"

/-- Backend set in which every backend raises on every chunk. -/
def failAllBackendOracle : BackendOracle :=
  fun _ _ _ _ => Except.error "backend raised"

/-- Backend set in which every backend succeeds, prepending `G`. -/
def okBackendOracle : BackendOracle :=
  fun _ _ _ chunk => Except.ok ('G' :: chunk)

/-- Extraction libraries fixture: PyMuPDF succeeds; python-docx succeeds
exactly on empty input and raises otherwise; docx2python returns text
with surrounding whitespace; decoding maps bytes to characters. -/
def wExtractOracles : ExtractOracles where
  fitz := fun _ => Except.ok [['p', '1']]
  pypdf := fun _ => Except.error (PyErr.exc "pypdf failed")
  docx := fun b => if b = [] then Except.ok ([['p']], []) else Except.error (PyErr.exc "docx failed")
  docx2python := fun _ => Except.ok [' ', 'r', 'a', 'w', ' ']
  decode := fun _ b => Except.ok (b.map Char.ofNat)

/-- FPDF fixture that renders any call sequence to the one-byte output
`[37]`. -/
def okRenderOracle : List PdfOp → Except PyErr (List Nat) :=
  fun _ => Except.ok [37]

/-- Extraction fixture exercising the encoding-retry loop of the txt
branch: UTF-8 decoding raises `UnicodeDecodeError`, latin-1 succeeds with
text carrying surrounding whitespace, the other encodings raise. -/
def wTxtOracles : ExtractOracles :=
  { wExtractOracles with
    decode := fun enc _ =>
      if enc = "latin-1" then Except.ok [' ', 'h', 'i', ' ']
      else Except.error (PyErr.unicodeDecode "bad utf-8") }

/-! ## Lemmas about the word splitter and the chunker -/

theorem pyWords_cons (c : Char) (cs : List Char) :
    pyWords (c :: cs) =
      if pyIsSpace c then pyWords cs
      else
        match cs with
        | [] => [[c]]
        | c2 :: _ =>
          if pyIsSpace c2 then [c] :: pyWords cs
          else
            match pyWords cs with
            | [] => [[c]]
            | w :: rest => (c :: w) :: rest := rfl

theorem pyWords_cons_space {c : Char} (cs : List Char) (h : pyIsSpace c = true) :
    pyWords (c :: cs) = pyWords cs := by
  simp [pyWords_cons, h]

theorem pyWords_one {c : Char} (h : pyIsSpace c = false) :
    pyWords [c] = [[c]] := by
  simp [pyWords_cons, h]

theorem pyWords_cons₂_space {c c2 : Char} (t : List Char)
    (h : pyIsSpace c = false) (h2 : pyIsSpace c2 = true) :
    pyWords (c :: c2 :: t) = [c] :: pyWords (c2 :: t) := by
  simp [pyWords_cons c (c2 :: t), h, h2]

theorem pyWords_cons₂_nospace {c c2 : Char} {t : List Char} {w : List Char}
    {rest : List (List Char)}
    (h : pyIsSpace c = false) (h2 : pyIsSpace c2 = false)
    (hws : pyWords (c2 :: t) = w :: rest) :
    pyWords (c :: c2 :: t) = (c :: w) :: rest := by
  rw [pyWords_cons c (c2 :: t)]
  simp [h, h2, hws]

theorem pyWords_ne_nil_of_head_not_space {c : Char} (cs : List Char)
    (h : pyIsSpace c = false) : pyWords (c :: cs) ≠ [] := by
  rw [pyWords_cons]
  cases cs with
  | nil => simp [h]
  | cons c2 t =>
    simp only [h, Bool.false_eq_true, if_false]
    split
    · simp
    · split <;> simp

theorem spaceJoin_single (w : List Char) : spaceJoin [w] = w := by
  simp [spaceJoin, List.intercalate]

theorem spaceJoin_cons₂ (w x : List Char) (t : List (List Char)) :
    spaceJoin (w :: x :: t) = w ++ ' ' :: spaceJoin (x :: t) := by
  simp [spaceJoin, List.intercalate, List.intersperse]

theorem pyWords_good : ∀ (l : List Char), ∀ w ∈ pyWords l, GoodWord w := by
  intro l
  induction l with
  | nil => intro w hw; simp [pyWords] at hw
  | cons c cs ih =>
    intro w hw
    by_cases hc : pyIsSpace c
    · rw [pyWords_cons_space cs hc] at hw
      exact ih w hw
    · rw [Bool.not_eq_true] at hc
      cases cs with
      | nil =>
        rw [pyWords_one hc] at hw
        simp at hw
        subst hw
        exact ⟨by simp, by simp [hc]⟩
      | cons c2 t =>
        by_cases h2 : pyIsSpace c2
        · rw [pyWords_cons₂_space t hc h2] at hw
          rcases List.mem_cons.mp hw with h | h
          · subst h; exact ⟨by simp, by simp [hc]⟩
          · exact ih w h
        · rw [Bool.not_eq_true] at h2
          rcases hws : pyWords (c2 :: t) with _ | ⟨w0, rest⟩
          · exact absurd hws (pyWords_ne_nil_of_head_not_space t h2)
          · rw [pyWords_cons₂_nospace hc h2 hws] at hw
            rcases List.mem_cons.mp hw with h | h
            · subst h
              have hgood := ih w0 (by rw [hws]; exact List.mem_cons_self _ _)
              refine ⟨by simp, ?_⟩
              intro x hx
              rcases List.mem_cons.mp hx with hx | hx
              · subst hx; exact hc
              · exact hgood.2 x hx
            · exact ih w (by rw [hws]; exact List.mem_cons_of_mem _ h)

theorem pyWords_append_space (a b : List Char) :
    pyWords (a ++ ' ' :: b) = pyWords a ++ pyWords b := by
  induction a with
  | nil =>
    rw [List.nil_append, pyWords_cons_space b (by decide)]
    rfl
  | cons c a' ih =>
    rw [List.cons_append]
    by_cases hc : pyIsSpace c
    · rw [pyWords_cons_space _ hc, ih, pyWords_cons_space _ hc]
    · rw [Bool.not_eq_true] at hc
      cases a' with
      | nil =>
        rw [List.nil_append, pyWords_cons₂_space b hc (by decide),
          pyWords_cons_space b (by decide), pyWords_one hc]
        rfl
      | cons c2 t =>
        rw [List.cons_append]
        by_cases h2 : pyIsSpace c2
        · rw [pyWords_cons₂_space _ hc h2, ← List.cons_append, ih,
            pyWords_cons₂_space t hc h2]
          rfl
        · rw [Bool.not_eq_true] at h2
          rcases hws : pyWords (c2 :: t) with _ | ⟨w0, rest⟩
          · exact absurd hws (pyWords_ne_nil_of_head_not_space t h2)
          · have hws' : pyWords (c2 :: (t ++ ' ' :: b)) = w0 :: (rest ++ pyWords b) := by
              rw [← List.cons_append, ih, hws]
              rfl
            rw [pyWords_cons₂_nospace hc h2 hws',
              pyWords_cons₂_nospace hc h2 hws]
            rfl

theorem pyWords_single : ∀ (w : List Char), w ≠ [] →
    (∀ c ∈ w, pyIsSpace c = false) → pyWords w = [w] := by
  intro w
  induction w with
  | nil => intro h; exact absurd rfl h
  | cons c cs ih =>
    intro _ hnospace
    have hc : pyIsSpace c = false := hnospace c (List.mem_cons_self _ _)
    cases cs with
    | nil => exact pyWords_one hc
    | cons c2 t =>
      have h2 : pyIsSpace c2 = false := hnospace c2 (by simp)
      have ihcs : pyWords (c2 :: t) = [c2 :: t] :=
        ih (by simp) (fun x hx => hnospace x (List.mem_cons_of_mem _ hx))
      exact pyWords_cons₂_nospace hc h2 ihcs

theorem pyWords_spaceJoin : ∀ (ws : List (List Char)), ws ≠ [] →
    (∀ w ∈ ws, GoodWord w) → pyWords (spaceJoin ws) = ws := by
  intro ws
  induction ws with
  | nil => intro h; exact absurd rfl h
  | cons w ws' ih =>
    intro _ hgood
    have hw := hgood w (List.mem_cons_self _ _)
    cases ws' with
    | nil =>
      rw [spaceJoin_single]
      exact pyWords_single w hw.1 hw.2
    | cons w2 t =>
      rw [spaceJoin_cons₂, pyWords_append_space,
        pyWords_single w hw.1 hw.2,
        ih (by simp) (fun x hx => hgood x (List.mem_cons_of_mem _ hx))]
      rfl

/-- Invariant of the greedy accumulation loop: however the words are grouped,
the grouping loses no word, splits no word, and preserves order — both when
the produced chunks are re-split into words individually and when they are
first rejoined with single spaces. -/
theorem splitLoop_words (cs : Nat) : ∀ (ws cur : List (List Char)) (len : Nat),
    (∀ w ∈ ws, GoodWord w) → (∀ w ∈ cur, GoodWord w) →
    pyWords (spaceJoin (splitLoop cs ws cur len)) = cur ++ ws ∧
    ((splitLoop cs ws cur len).map pyWords).flatten = cur ++ ws := by
  intro ws
  induction ws with
  | nil =>
    intro cur len _ hcur
    cases cur with
    | nil => simp [splitLoop, spaceJoin, List.intercalate, pyWords]
    | cons x t =>
      have hne : (x :: t : List (List Char)) ≠ [] := by simp
      constructor
      · simp only [splitLoop, List.isEmpty_cons, Bool.false_eq_true, if_false]
        rw [spaceJoin_single, pyWords_spaceJoin _ hne hcur]
        simp
      · simp only [splitLoop, List.isEmpty_cons, Bool.false_eq_true, if_false]
        simp [pyWords_spaceJoin _ hne hcur]
  | cons w ws' ih =>
    intro cur len hws hcur
    have hw : GoodWord w := hws w (List.mem_cons_self _ _)
    have hws' : ∀ x ∈ ws', GoodWord x := fun x hx => hws x (List.mem_cons_of_mem _ hx)
    simp only [splitLoop]
    split
    · next hcond =>
      have hcurne : cur ≠ [] := by
        intro hc
        subst hc
        simp at hcond
      have ihr := ih [w] (w.length + 1) hws' (by simpa using hw)
      rcases hL : splitLoop cs ws' [w] (w.length + 1) with _ | ⟨x, t⟩
      · rw [hL] at ihr
        simp [spaceJoin, List.intercalate, pyWords] at ihr
      · rw [hL] at ihr
        constructor
        · rw [spaceJoin_cons₂, pyWords_append_space,
            pyWords_spaceJoin cur hcurne hcur, ihr.1]
          simp
        · simp only [List.map_cons, List.flatten_cons]
          rw [pyWords_spaceJoin cur hcurne hcur]
          have h2 : pyWords x ++ ((t.map pyWords)).flatten = [w] ++ ws' := by
            simpa using ihr.2
          rw [h2]
          simp
    · have ihr := ih (cur ++ [w]) (len + (w.length + 1)) hws' ?_
      · rw [ihr.1, ihr.2]
        simp
      · intro x hx
        rcases List.mem_append.mp hx with h | h
        · exact hcur x h
        · simp at h; subst h; exact hw

/-- C5 core: for every text and chunk size, rejoining the chunks with single
spaces preserves the word sequence exactly, and each chunk consists of whole
words of the original in order (no word is split across chunks). -/
theorem splitTextIntoChunks_words (text : List Char) (chunkSize : Nat) :
    pyWords (spaceJoin (splitTextIntoChunks text chunkSize)) = pyWords text ∧
    ((splitTextIntoChunks text chunkSize).map pyWords).flatten = pyWords text := by
  unfold splitTextIntoChunks
  split
  · constructor
    · rw [spaceJoin_single]
    · simp
  · have h := splitLoop_words chunkSize (pyWords text) [] 0 (pyWords_good text) (by simp)
    simpa using h

/-! ## Lemmas about `pyStrip` -/

theorem rstrip_cons (c : Char) (cs : List Char) :
    rstrip (c :: cs) =
      if (rstrip cs).isEmpty && pyIsSpace c then [] else c :: rstrip cs := rfl

theorem dropWhile_pyIsSpace_idem (l : List Char) :
    (l.dropWhile pyIsSpace).dropWhile pyIsSpace = l.dropWhile pyIsSpace := by
  induction l with
  | nil => rfl
  | cons c cs ih =>
    by_cases hc : pyIsSpace c
    · simp [List.dropWhile_cons, hc, ih]
    · simp [List.dropWhile_cons, hc]

theorem rstrip_idem (l : List Char) : rstrip (rstrip l) = rstrip l := by
  induction l with
  | nil => rfl
  | cons c cs ih =>
    rw [rstrip_cons]
    split
    · rfl
    · next h => rw [rstrip_cons, ih, if_neg h]

theorem dropWhile_rstrip_comm (l : List Char) :
    (rstrip l).dropWhile pyIsSpace = rstrip (l.dropWhile pyIsSpace) := by
  induction l with
  | nil => rfl
  | cons c cs ih =>
    by_cases hc : pyIsSpace c
    · rcases hcs : rstrip cs with _ | ⟨x, xs⟩
      · have h1 : rstrip (c :: cs) = [] := by rw [rstrip_cons, hcs]; simp [hc]
        rw [h1, List.dropWhile_cons, if_pos hc, ← ih, hcs]
      · have h1 : rstrip (c :: cs) = c :: rstrip cs := by
          rw [rstrip_cons, hcs]
          simp
        rw [h1, hcs, List.dropWhile_cons, if_pos hc, ← hcs, ih,
          List.dropWhile_cons, if_pos hc]
    · have hcf : pyIsSpace c = false := by simpa using hc
      have h1 : rstrip (c :: cs) = c :: rstrip cs := by
        rw [rstrip_cons, hcf]
        simp
      rw [h1, List.dropWhile_cons, if_neg (by simp [hcf]),
        List.dropWhile_cons, if_neg (by simp [hcf]), rstrip_cons, hcf]
      simp

theorem pyStrip_idem (l : List Char) : pyStrip (pyStrip l) = pyStrip l := by
  unfold pyStrip
  rw [← dropWhile_rstrip_comm (rstrip l), rstrip_idem, dropWhile_pyIsSpace_idem]

/-! ## Lemmas about `_translate_chunk` and `translate_text` -/

/-- For a recognised backend name, the dispatch chain of `_translate_chunk`
calls that backend with the mapped codes. -/
theorem translateChunkBody_dispatch (o : BackendOracle) (chunk : List Char)
    (targetLang sourceLang backend : String)
    (hb : backend ∈ (["google", "microsoft", "libre", "mymemory"] : List String)) :
    translateChunkBody o chunk targetLang sourceLang backend =
      match o backend (chunkBackendSource sourceLang backend)
          (getBackendLanguageCode targetLang backend) chunk with
      | Except.ok translated => Except.ok (if translated.isEmpty then chunk else translated)
      | Except.error e => Except.error e := by
  fin_cases hb <;> rfl

/-- An unrecognised backend name makes the body raise the `ValueError`. -/
theorem translateChunkBody_unsupported (o : BackendOracle) (chunk : List Char)
    (targetLang sourceLang backend : String)
    (hb : backend ∉ (["google", "microsoft", "libre", "mymemory"] : List String)) :
    translateChunkBody o chunk targetLang sourceLang backend =
      Except.error ("Unsupported backend: " ++ backend) := by
  have h1 : backend ≠ "google" := by intro e; exact hb (by rw [e]; simp)
  have h2 : backend ≠ "microsoft" := by intro e; exact hb (by rw [e]; simp)
  have h3 : backend ≠ "libre" := by intro e; exact hb (by rw [e]; simp)
  have h4 : backend ≠ "mymemory" := by intro e; exact hb (by rw [e]; simp)
  simp only [translateChunkBody, if_neg h1, if_neg h2, if_neg h3, if_neg h4]

/-- When every backend call raises, `_translate_chunk` returns the chunk. -/
theorem translateChunk_of_error (o : BackendOracle) (chunk : List Char)
    (targetLang sourceLang backend : String)
    (h : ∀ b s t c, ∃ m, o b s t c = Except.error m) :
    translateChunk o chunk targetLang sourceLang backend = chunk := by
  unfold translateChunk
  by_cases hb : backend ∈ (["google", "microsoft", "libre", "mymemory"] : List String)
  · obtain ⟨m, hm⟩ := h backend (chunkBackendSource sourceLang backend)
      (getBackendLanguageCode targetLang backend) chunk
    rw [translateChunkBody_dispatch o chunk targetLang sourceLang backend hb, hm]
  · rw [translateChunkBody_unsupported o chunk targetLang sourceLang backend hb]

/-- Shape of a `translate_text` run that actually translates (nonblank
input, resolved source different from the target): the first failover
candidate — the preferred backend — always completes, because
`_translate_chunk` never raises. -/
theorem translateText_translating_eq (dO : DetectOracles) (bO : BackendOracle)
    (text : List Char) (targetLang sourceLang backend : String) (chunkSize : Nat)
    (h1 : pyStrip text ≠ [])
    (h2 : resolveSource dO text sourceLang ≠ targetLang) :
    translateText dO bO text targetLang sourceLang backend chunkSize =
      { translated_text := spaceJoin ((splitTextIntoChunks text chunkSize).map
          (fun c => translateChunk bO c targetLang (resolveSource dO text sourceLang) backend)),
        source_language := resolveSource dO text sourceLang,
        target_language := targetLang,
        backend_used := some backend,
        chunks_processed := (splitTextIntoChunks text chunkSize).length,
        error := none, note := none } := by
  unfold translateText
  rw [if_neg h1]
  simp only [if_neg h2, tryBackends]

/-- Shape of a `translate_text` run that hits the same-language no-op
branch. -/
theorem translateText_noop_eq (dO : DetectOracles) (bO : BackendOracle)
    (text : List Char) (targetLang sourceLang backend : String) (chunkSize : Nat)
    (h1 : pyStrip text ≠ [])
    (h2 : resolveSource dO text sourceLang = targetLang) :
    translateText dO bO text targetLang sourceLang backend chunkSize =
      { translated_text := text,
        source_language := resolveSource dO text sourceLang,
        target_language := targetLang,
        backend_used := some backend,
        chunks_processed := 1,
        error := none, note := some "No translation needed - same language" } := by
  unfold translateText
  rw [if_neg h1]
  simp only [if_pos h2]

/-! ## Claim theorems: translation orchestrator -/

/-- C1, counterexample.  With a backend set where the preferred backend
(`microsoft`) always raises and `google` always succeeds, the result uses
`microsoft`, not `google`: `_translate_chunk` swallows the exception and
returns the chunk unchanged, so the failover loop never advances past the
preferred backend. -/
theorem translateText_failing_preferred_not_skipped_cex :
    (translateText trivialDetectOracles cexBackendOracle ['h', 'i'] "hi" "en" "microsoft" 5000).backend_used
        = some "microsoft" ∧
    (translateText trivialDetectOracles cexBackendOracle ['h', 'i'] "hi" "en" "microsoft" 5000).backend_used
        ≠ some "google" ∧
    (translateText trivialDetectOracles cexBackendOracle ['h', 'i'] "hi" "en" "microsoft" 5000).translated_text
        = ['h', 'i'] ∧
    (translateText trivialDetectOracles cexBackendOracle ['h', 'i'] "hi" "en" "microsoft" 5000).error
        = none := by
  decide

/-- C1, amended.  Because `_translate_chunk` catches every exception and
returns the original chunk, no chunk translation ever throws to the
failover loop of `translate_text`; the first candidate — the preferred
backend — always completes all chunks, so for every nonblank text whose
resolved source differs from the target the result reports the preferred
backend as `backend_used` with no error, and the translated text is the
preferred backend's per-chunk output (failed chunks passing through
unchanged) joined with single spaces; `google`, `libre` and `mymemory`
are never consulted. -/
theorem translateText_first_candidate_always_wins (dO : DetectOracles) (bO : BackendOracle)
    (text : List Char) (targetLang sourceLang backend : String) (chunkSize : Nat)
    (h1 : pyStrip text ≠ [])
    (h2 : resolveSource dO text sourceLang ≠ targetLang) :
    translateText dO bO text targetLang sourceLang backend chunkSize =
      { translated_text := spaceJoin ((splitTextIntoChunks text chunkSize).map
          (fun c => translateChunk bO c targetLang (resolveSource dO text sourceLang) backend)),
        source_language := resolveSource dO text sourceLang,
        target_language := targetLang,
        backend_used := some backend,
        chunks_processed := (splitTextIntoChunks text chunkSize).length,
        error := none, note := none } :=
  translateText_translating_eq dO bO text targetLang sourceLang backend chunkSize h1 h2

theorem translateText_first_candidate_always_wins_witness :
    translateText trivialDetectOracles cexBackendOracle ['h', 'i'] "hi" "en" "microsoft" 5000 =
      { translated_text := spaceJoin ((splitTextIntoChunks ['h', 'i'] 5000).map
          (fun c => translateChunk cexBackendOracle c "hi"
            (resolveSource trivialDetectOracles ['h', 'i'] "en") "microsoft")),
        source_language := resolveSource trivialDetectOracles ['h', 'i'] "en",
        target_language := "hi",
        backend_used := some "microsoft",
        chunks_processed := (splitTextIntoChunks ['h', 'i'] 5000).length,
        error := none, note := none } :=
  translateText_first_candidate_always_wins trivialDetectOracles cexBackendOracle
    ['h', 'i'] "hi" "en" "microsoft" 5000 (by decide) (by decide)

/-- C2, counterexample.  With every backend raising on every chunk,
`translate_text` does not return the exhaustion error: it reports success
with the preferred backend and the original text, because
`_translate_chunk` converts every exception into the untranslated chunk. -/
theorem translateText_all_backends_fail_no_error_cex :
    (translateText trivialDetectOracles failAllBackendOracle ['h', 'i'] "hi" "en" "google" 5000).error
        = none ∧
    (translateText trivialDetectOracles failAllBackendOracle ['h', 'i'] "hi" "en" "google" 5000).error
        ≠ some "All translation backends failed" ∧
    (translateText trivialDetectOracles failAllBackendOracle ['h', 'i'] "hi" "en" "google" 5000).translated_text
        = ['h', 'i'] ∧
    (translateText trivialDetectOracles failAllBackendOracle ['h', 'i'] "hi" "en" "google" 5000).backend_used
        = some "google" ∧
    (translateText trivialDetectOracles failAllBackendOracle ['h', 'i'] "hi" "en" "google" 5000).chunks_processed
        = 1 := by
  decide

/-- C2, amended.  When every candidate backend raises for every chunk,
`translate_text` still reports success: `error = none`, `backend_used` is
the preferred backend, `chunks_processed` is the number of chunks, and
the "translated" text is the original chunks (each passed through
unchanged by `_translate_chunk`) rejoined with single spaces.  The
exhaustion branch (`error = "All translation backends failed"`,
`backend_used = None`, `chunks_processed = 0`) is unreachable. -/
theorem translateText_all_backends_raise_passthrough (dO : DetectOracles) (bO : BackendOracle)
    (text : List Char) (targetLang sourceLang backend : String) (chunkSize : Nat)
    (hfail : ∀ b s t c, ∃ m, bO b s t c = Except.error m)
    (h1 : pyStrip text ≠ [])
    (h2 : resolveSource dO text sourceLang ≠ targetLang) :
    translateText dO bO text targetLang sourceLang backend chunkSize =
      { translated_text := spaceJoin (splitTextIntoChunks text chunkSize),
        source_language := resolveSource dO text sourceLang,
        target_language := targetLang,
        backend_used := some backend,
        chunks_processed := (splitTextIntoChunks text chunkSize).length,
        error := none, note := none } := by
  rw [translateText_translating_eq dO bO text targetLang sourceLang backend chunkSize h1 h2]
  have hmap : (splitTextIntoChunks text chunkSize).map
      (fun c => translateChunk bO c targetLang (resolveSource dO text sourceLang) backend) =
      splitTextIntoChunks text chunkSize := by
    rw [List.map_congr_left
      (fun c _ => translateChunk_of_error bO c targetLang (resolveSource dO text sourceLang) backend hfail)]
    exact List.map_id _
  rw [hmap]

theorem translateText_all_backends_raise_passthrough_witness :
    translateText trivialDetectOracles failAllBackendOracle ['h', 'i'] "hi" "en" "google" 5000 =
      { translated_text := spaceJoin (splitTextIntoChunks ['h', 'i'] 5000),
        source_language := resolveSource trivialDetectOracles ['h', 'i'] "en",
        target_language := "hi",
        backend_used := some "google",
        chunks_processed := (splitTextIntoChunks ['h', 'i'] 5000).length,
        error := none, note := none } :=
  translateText_all_backends_raise_passthrough trivialDetectOracles failAllBackendOracle
    ['h', 'i'] "hi" "en" "google" 5000
    (fun _ _ _ _ => ⟨"backend raised", rfl⟩) (by decide) (by decide)

/-- C3, counterexample.  The empty-input short-circuit returns a non-null
error together with `backend_used` set to the requested backend name
(`'backend_used': backend` at translator.py line 124), not `None`. -/
theorem translateText_error_backend_used_cex :
    (translateText trivialDetectOracles cexBackendOracle [] "hi" "en" "google" 5000).error
        = some "Empty text provided" ∧
    (translateText trivialDetectOracles cexBackendOracle [] "hi" "en" "google" 5000).backend_used
        = some "google" ∧
    (translateText trivialDetectOracles cexBackendOracle [] "hi" "en" "google" 5000).backend_used
        ≠ none := by
  decide

/-- C3, amended.  Every `translate_text` result with a non-null error has
an empty `translated_text`, but its `backend_used` is the requested
backend name rather than `None`: the only reachable error branch is the
empty-input short-circuit (the exhaustion branch and the outer catch-all,
which do set `backend_used = None`, are unreachable because
`_translate_chunk` never raises). -/
theorem translateText_error_invariant_amended (dO : DetectOracles) (bO : BackendOracle)
    (text : List Char) (targetLang sourceLang backend : String) (chunkSize : Nat)
    (h : (translateText dO bO text targetLang sourceLang backend chunkSize).error ≠ none) :
    (translateText dO bO text targetLang sourceLang backend chunkSize).translated_text = [] ∧
    (translateText dO bO text targetLang sourceLang backend chunkSize).backend_used = some backend ∧
    (translateText dO bO text targetLang sourceLang backend chunkSize).error
      = some "Empty text provided" := by
  by_cases h1 : pyStrip text = []
  · unfold translateText
    rw [if_pos h1]
    exact ⟨rfl, rfl, rfl⟩
  · by_cases h2 : resolveSource dO text sourceLang = targetLang
    · exact absurd (by
        rw [translateText_noop_eq dO bO text targetLang sourceLang backend chunkSize h1 h2]) h
    · exact absurd (by
        rw [translateText_translating_eq dO bO text targetLang sourceLang backend chunkSize h1 h2]) h

theorem translateText_error_invariant_amended_witness :
    (translateText trivialDetectOracles cexBackendOracle [] "hi" "en" "google" 5000).error ≠ none ∧
    ((translateText trivialDetectOracles cexBackendOracle [] "hi" "en" "google" 5000).translated_text = [] ∧
     (translateText trivialDetectOracles cexBackendOracle [] "hi" "en" "google" 5000).backend_used
       = some "google" ∧
     (translateText trivialDetectOracles cexBackendOracle [] "hi" "en" "google" 5000).error
       = some "Empty text provided") :=
  ⟨by decide,
   translateText_error_invariant_amended trivialDetectOracles cexBackendOracle
     [] "hi" "en" "google" 5000 (by decide)⟩

/-- C4, counterexample.  The guard preceding the no-op branch is
`if not text.strip()`, so a whitespace-only (hence non-empty) input with
resolved source equal to the target is answered by the empty-input error,
not by the claimed unchanged pass-through. -/
theorem translateText_noop_blank_text_cex :
    ([' '] : List Char) ≠ [] ∧
    resolveSource trivialDetectOracles [' '] "en" = "en" ∧
    (translateText trivialDetectOracles cexBackendOracle [' '] "en" "en" "google" 5000).error
        = some "Empty text provided" ∧
    (translateText trivialDetectOracles cexBackendOracle [' '] "en" "en" "google" 5000).translated_text
        ≠ [' '] ∧
    (translateText trivialDetectOracles cexBackendOracle [' '] "en" "en" "google" 5000).chunks_processed
        ≠ 1 := by
  decide

/-- C4, amended.  For every non-blank text (`text.strip()` nonempty — a
non-empty but all-whitespace text is instead answered by the empty-input
error) whose resolved source language equals the target language,
`translate_text` returns the input unchanged with `chunks_processed = 1`
and no error; the result does not depend on the backend set or on the
chunk size, i.e. no backend and no chunking is consulted. -/
theorem translateText_noop_same_language (dO : DetectOracles) (bO : BackendOracle)
    (text : List Char) (targetLang sourceLang backend : String) (chunkSize : Nat)
    (h1 : pyStrip text ≠ [])
    (h2 : resolveSource dO text sourceLang = targetLang) :
    translateText dO bO text targetLang sourceLang backend chunkSize =
      { translated_text := text,
        source_language := targetLang,
        target_language := targetLang,
        backend_used := some backend,
        chunks_processed := 1,
        error := none, note := some "No translation needed - same language" } ∧
    (∀ (bO' : BackendOracle) (chunkSize' : Nat),
      translateText dO bO' text targetLang sourceLang backend chunkSize' =
        translateText dO bO text targetLang sourceLang backend chunkSize) := by
  have e := translateText_noop_eq dO bO text targetLang sourceLang backend chunkSize h1 h2
  constructor
  · rw [e, h2]
  · intro bO' chunkSize'
    rw [e, translateText_noop_eq dO bO' text targetLang sourceLang backend chunkSize' h1 h2]

theorem translateText_noop_same_language_witness :
    translateText trivialDetectOracles cexBackendOracle ['h', 'i'] "en" "en" "google" 5000 =
      { translated_text := ['h', 'i'],
        source_language := "en",
        target_language := "en",
        backend_used := some "google",
        chunks_processed := 1,
        error := none, note := some "No translation needed - same language" } :=
  (translateText_noop_same_language trivialDetectOracles cexBackendOracle
    ['h', 'i'] "en" "en" "google" 5000 (by decide) (by decide)).1

/-- C9, confirmed.  `_translate_chunk` is total: an unrecognised backend
name (whose `ValueError` is caught), a raising backend call, or an empty
(falsy) backend result all yield the original chunk unchanged; a
recognised backend returning a nonempty result yields that result.  No
exception ever propagates to the caller. -/
theorem translateChunk_total_characterization (o : BackendOracle) (chunk : List Char)
    (targetLang sourceLang backend : String) :
    (backend ∉ (["google", "microsoft", "libre", "mymemory"] : List String) →
      translateChunk o chunk targetLang sourceLang backend = chunk) ∧
    (∀ m, o backend (chunkBackendSource sourceLang backend)
        (getBackendLanguageCode targetLang backend) chunk = Except.error m →
      translateChunk o chunk targetLang sourceLang backend = chunk) ∧
    (o backend (chunkBackendSource sourceLang backend)
        (getBackendLanguageCode targetLang backend) chunk = Except.ok [] →
      translateChunk o chunk targetLang sourceLang backend = chunk) ∧
    (backend ∈ (["google", "microsoft", "libre", "mymemory"] : List String) →
      ∀ r, o backend (chunkBackendSource sourceLang backend)
          (getBackendLanguageCode targetLang backend) chunk = Except.ok r → r ≠ [] →
        translateChunk o chunk targetLang sourceLang backend = r) := by
  refine ⟨?_, ?_, ?_, ?_⟩
  · intro hb
    unfold translateChunk
    rw [translateChunkBody_unsupported o chunk targetLang sourceLang backend hb]
  · intro m hm
    unfold translateChunk
    by_cases hb : backend ∈ (["google", "microsoft", "libre", "mymemory"] : List String)
    · rw [translateChunkBody_dispatch o chunk targetLang sourceLang backend hb, hm]
    · rw [translateChunkBody_unsupported o chunk targetLang sourceLang backend hb]
  · intro hok
    unfold translateChunk
    by_cases hb : backend ∈ (["google", "microsoft", "libre", "mymemory"] : List String)
    · rw [translateChunkBody_dispatch o chunk targetLang sourceLang backend hb, hok]
      rfl
    · rw [translateChunkBody_unsupported o chunk targetLang sourceLang backend hb]
  · intro hb r hr hrne
    unfold translateChunk
    rw [translateChunkBody_dispatch o chunk targetLang sourceLang backend hb, hr]
    cases r with
    | nil => exact absurd rfl hrne
    | cons x xs => rfl

theorem translateChunk_total_characterization_witness :
    translateChunk okBackendOracle ['h', 'i'] "hi" "en" "brave" = ['h', 'i'] ∧
    translateChunk failAllBackendOracle ['h', 'i'] "hi" "en" "google" = ['h', 'i'] ∧
    translateChunk okBackendOracle ['h', 'i'] "hi" "en" "google" = ['G', 'h', 'i'] :=
  ⟨(translateChunk_total_characterization okBackendOracle ['h', 'i'] "hi" "en" "brave").1
      (by decide),
   (translateChunk_total_characterization failAllBackendOracle ['h', 'i'] "hi" "en" "google").2.1
      "backend raised" rfl,
   (translateChunk_total_characterization okBackendOracle ['h', 'i'] "hi" "en" "google").2.2.2
      (by decide) ['G', 'h', 'i'] rfl (by decide)⟩

/-! ## Claim theorems: chunker -/

/-- C5, counterexample.  For `t = "a  b c"` and `N = 4` (with
`N ≥ 1 + max word length = 2`), the chunks are `["a b", "c"]`: the double
space between `a` and `b` lies strictly inside the first chunk, not at a
chunk boundary, yet it was collapsed — so the rejoined text does not
reconstruct `t` "modulo exactly the whitespace at chunk boundaries".
(If only boundary whitespace changed, every chunk would occur verbatim in
`t`; the chunk `"a b"` does not.) -/
theorem splitTextIntoChunks_interior_whitespace_cex :
    1 + maxWordLength ['a', ' ', ' ', 'b', ' ', 'c'] ≤ 4 ∧
    splitTextIntoChunks ['a', ' ', ' ', 'b', ' ', 'c'] 4 = [['a', ' ', 'b'], ['c']] ∧
    occursContiguously ['a', ' ', 'b'] ['a', ' ', ' ', 'b', ' ', 'c'] = false := by
  decide

/-- C5, amended.  For every text `t` and every chunk size
`N ≥ 1 + max word length`, joining the chunks of
`_split_text_into_chunks(t, N)` with single spaces reconstructs `t`
modulo whitespace (the whitespace-delimited word sequence is preserved
exactly — but whitespace runs inside a chunk are collapsed too, not only
those at chunk boundaries), and no word of `t` is split across two
chunks: the concatenation of the chunks' word lists is the word list of
`t`. -/
theorem splitTextIntoChunks_reconstructs_words (text : List Char) (chunkSize : Nat)
    (_h : 1 + maxWordLength text ≤ chunkSize) :
    pyWords (spaceJoin (splitTextIntoChunks text chunkSize)) = pyWords text ∧
    ((splitTextIntoChunks text chunkSize).map pyWords).flatten = pyWords text :=
  splitTextIntoChunks_words text chunkSize

theorem splitTextIntoChunks_reconstructs_words_witness :
    1 + maxWordLength ['h', 'e', 'l', 'l', 'o', ' ', 'w', 'o', 'r', 'l', 'd'] ≤ 7 ∧
    (pyWords (spaceJoin (splitTextIntoChunks ['h', 'e', 'l', 'l', 'o', ' ', 'w', 'o', 'r', 'l', 'd'] 7)) =
      pyWords ['h', 'e', 'l', 'l', 'o', ' ', 'w', 'o', 'r', 'l', 'd'] ∧
    ((splitTextIntoChunks ['h', 'e', 'l', 'l', 'o', ' ', 'w', 'o', 'r', 'l', 'd'] 7).map pyWords).flatten =
      pyWords ['h', 'e', 'l', 'l', 'o', ' ', 'w', 'o', 'r', 'l', 'd']) :=
  ⟨by decide,
   splitTextIntoChunks_reconstructs_words ['h', 'e', 'l', 'l', 'o', ' ', 'w', 'o', 'r', 'l', 'd'] 7
     (by decide)⟩

/-! ## Claim theorems: language detection -/

/-- C8, counterexample.  On the empty input the short-circuit fires with
`language = "unknown"` and `confidence = 0.0`, but the error message is
`"Text too short for reliable detection"`, not the spec's literal
`"text too short"`. -/
theorem detectLanguage_short_text_message_cex :
    (detectLanguage trivialDetectOracles []).language = "unknown" ∧
    (detectLanguage trivialDetectOracles []).confidence = 0 ∧
    (detectLanguage trivialDetectOracles []).error = some "Text too short for reliable detection" ∧
    (detectLanguage trivialDetectOracles []).error ≠ some "text too short" := by
  decide

/-- C8, amended.  For every input whose cleaned form strips to fewer than
10 characters (for example `""` and `"hi"`), `detect_language`
short-circuits to `language = "unknown"`, `confidence = 0.0`, and the
error `"Text too short for reliable detection"`, without invoking the
underlying statistical detector: the result is independent of the
detector oracles. -/
theorem detectLanguage_short_text_short_circuit (dO : DetectOracles) (text : List Char)
    (h : (pyStrip (cleanTextForDetection text)).length < 10) :
    detectLanguage dO text =
      { language := "unknown", confidence := 0, language_name := "Unknown",
        error := some "Text too short for reliable detection" } ∧
    (∀ dO' : DetectOracles, detectLanguage dO' text = detectLanguage dO text) := by
  constructor
  · simp only [detectLanguage, if_pos h]
  · intro dO'
    simp only [detectLanguage, if_pos h]

theorem detectLanguage_short_text_short_circuit_witness :
    (pyStrip (cleanTextForDetection ['h', 'i'])).length < 10 ∧
    detectLanguage trivialDetectOracles ['h', 'i'] =
      { language := "unknown", confidence := 0, language_name := "Unknown",
        error := some "Text too short for reliable detection" } :=
  ⟨by decide,
   (detectLanguage_short_text_short_circuit trivialDetectOracles ['h', 'i'] (by decide)).1⟩

/-! ## Claim theorems: document processor -/

/-- C6, counterexample.  The plain-text branches return the decoded text
verbatim: extracting the bytes of `" hi "` through the direct UTF-8 path
yields `" hi "`, not trimmed of its leading and trailing whitespace — and
the same happens on a fallback-encoding path (UTF-8 raising
`UnicodeDecodeError`, latin-1 succeeding with `" hi "`). -/
theorem extractTxtText_untrimmed_cex :
    (extractTxtText wExtractOracles [32, 104, 105, 32]).text = [' ', 'h', 'i', ' '] ∧
    (extractText wExtractOracles [32, 104, 105, 32] ".txt").text = [' ', 'h', 'i', ' '] ∧
    pyStrip [' ', 'h', 'i', ' '] ≠ [' ', 'h', 'i', ' '] ∧
    (extractTxtText wExtractOracles [32, 104, 105, 32]).error = none ∧
    (extractTxtText wTxtOracles [32]).text = [' ', 'h', 'i', ' '] ∧
    (extractTxtText wTxtOracles [32]).method = some "direct-latin-1" ∧
    (extractTxtText wTxtOracles [32]).error = none := by
  decide

/-- C6, amended.  The PDF branches (both methods, and the failure branch,
whose text is empty) always return trimmed text, and so does the primary
(python-docx) DOCX branch; but the docx2python DOCX fallback returns
`result.text` verbatim and the plain-text branches return the decoded
text verbatim, neither trimmed.  The plain-text branches are covered
exhaustively: the direct UTF-8 path returns its decoded text verbatim; a
`UnicodeDecodeError` sends the function into the encoding-retry loop over
`["utf-8", "latin-1", "cp1252", "iso-8859-1"]`, in which every failing
encoding is skipped and the first succeeding encoding returns its decoded
text verbatim. -/
theorem extractText_trimming_by_branch (o : ExtractOracles) (b : List Nat) :
    pyStrip (extractPdfText o b).text = (extractPdfText o b).text ∧
    (∀ paras tables, o.docx b = Except.ok (paras, tables) →
      pyStrip (extractDocxText o b).text = (extractDocxText o b).text) ∧
    (∀ t, o.decode "utf-8" b = Except.ok t → (extractTxtText o b).text = t) ∧
    (∀ m, o.decode "utf-8" b = Except.error (PyErr.unicodeDecode m) →
      extractTxtText o b = tryEncodings o b ["utf-8", "latin-1", "cp1252", "iso-8859-1"]) ∧
    (∀ enc rest t, o.decode enc b = Except.ok t →
      (tryEncodings o b (enc :: rest)).text = t) ∧
    (∀ enc rest e, o.decode enc b = Except.error e →
      tryEncodings o b (enc :: rest) = tryEncodings o b rest) ∧
    (∀ e t, o.docx b = Except.error e → o.docx2python b = Except.ok t →
      (extractDocxText o b).text = t) := by
  refine ⟨?_, ?_, ?_, ?_, ?_, ?_, ?_⟩
  · cases hf : o.fitz b with
    | ok pages =>
      simp only [extractPdfText, hf]
      exact pyStrip_idem _
    | error e =>
      cases hp : o.pypdf b with
      | ok pages =>
        simp only [extractPdfText, hf, hp]
        exact pyStrip_idem _
      | error e2 =>
        simp only [extractPdfText, hf, hp]
        rfl
  · intro paras tables hd
    simp only [extractDocxText, hd]
    exact pyStrip_idem _
  · intro t ht
    simp only [extractTxtText, ht]
  · intro m hm
    simp only [extractTxtText, hm]
  · intro enc rest t ht
    simp only [tryEncodings, ht]
  · intro enc rest e he
    simp only [tryEncodings, he]
  · intro e t hd h2
    simp only [extractDocxText, hd, h2]

theorem extractText_trimming_by_branch_witness :
    pyStrip (extractPdfText wExtractOracles []).text = (extractPdfText wExtractOracles []).text ∧
    pyStrip (extractDocxText wExtractOracles []).text = (extractDocxText wExtractOracles []).text ∧
    (extractTxtText wExtractOracles [32]).text = [' '] ∧
    extractTxtText wTxtOracles [32] =
      tryEncodings wTxtOracles [32] ["utf-8", "latin-1", "cp1252", "iso-8859-1"] ∧
    (tryEncodings wTxtOracles [32] ("latin-1" :: ["cp1252", "iso-8859-1"])).text
      = [' ', 'h', 'i', ' '] ∧
    tryEncodings wTxtOracles [32] ("utf-8" :: ["latin-1", "cp1252", "iso-8859-1"])
      = tryEncodings wTxtOracles [32] ["latin-1", "cp1252", "iso-8859-1"] ∧
    (extractDocxText wExtractOracles [1]).text = [' ', 'r', 'a', 'w', ' '] :=
  ⟨(extractText_trimming_by_branch wExtractOracles []).1,
   (extractText_trimming_by_branch wExtractOracles []).2.1 [['p']] [] rfl,
   (extractText_trimming_by_branch wExtractOracles [32]).2.2.1 [' '] rfl,
   (extractText_trimming_by_branch wTxtOracles [32]).2.2.2.1 "bad utf-8" rfl,
   (extractText_trimming_by_branch wTxtOracles [32]).2.2.2.2.1 "latin-1"
     ["cp1252", "iso-8859-1"] [' ', 'h', 'i', ' '] rfl,
   (extractText_trimming_by_branch wTxtOracles [32]).2.2.2.2.2.1 "utf-8"
     ["latin-1", "cp1252", "iso-8859-1"] (PyErr.unicodeDecode "bad utf-8") rfl,
   (extractText_trimming_by_branch wExtractOracles [1]).2.2.2.2.2.2 (PyErr.exc "docx failed")
     [' ', 'r', 'a', 'w', ' '] rfl rfl⟩

/-- C10, confirmed.  `extract_text` lowercases the extension before
dispatching, so `.PDF` and `.Pdf` behave exactly like `.pdf`; and every
extension outside `{.pdf, .docx, .txt}` yields the structured result
`{text = "", pages = 0, error = "Unsupported file format: <ext>"}`
(the `ValueError` is caught by the outer `except`) instead of raising. -/
theorem extractText_extension_dispatch (o : ExtractOracles) (b : List Nat) :
    extractText o b ".PDF" = extractText o b ".pdf" ∧
    extractText o b ".Pdf" = extractText o b ".pdf" ∧
    (∀ ext : String, pyLower ext ∉ ([".pdf", ".docx", ".txt"] : List String) →
      extractText o b ext =
        { text := [], pages := some 0,
          error := some ("Unsupported file format: " ++ pyLower ext) }) := by
  have hpdf : pyLower ".pdf" = ".pdf" := by decide
  refine ⟨?_, ?_, ?_⟩
  · have h : pyLower ".PDF" = ".pdf" := by decide
    simp only [extractText, h, hpdf]
  · have h : pyLower ".Pdf" = ".pdf" := by decide
    simp only [extractText, h, hpdf]
  · intro ext hext
    have h1 : pyLower ext ≠ ".pdf" := fun e => hext (by rw [e]; simp)
    have h2 : pyLower ext ≠ ".docx" := fun e => hext (by rw [e]; simp)
    have h3 : pyLower ext ≠ ".txt" := fun e => hext (by rw [e]; simp)
    simp only [extractText, if_neg h1, if_neg h2, if_neg h3]

theorem extractText_extension_dispatch_witness :
    extractText wExtractOracles [] ".md" =
      { text := [], pages := some 0,
        error := some ("Unsupported file format: " ++ pyLower ".md") } :=
  (extractText_extension_dispatch wExtractOracles []).2.2 ".md" (by decide)

/-! ## Claim theorems: PDF renderer -/

/-- C7, confirmed.  `create_translated_pdf` never raises and never returns
empty bytes, for any input text (whitespace-only texts and over-80-column
lines are handled by the total wrapping logic): assuming the FPDF library
(modelled as the `render` oracle) yields nonempty bytes whenever it
succeeds and renders the fallback error script successfully, the function
always returns nonempty bytes, and whenever the main render fails it
returns exactly the rendered one-page error document naming the failure. -/
theorem createTranslatedPdf_never_raises (render : List PdfOp → Except PyErr (List Nat))
    (originalFilename translatedText : List Char) (sourceLang targetLang nowStr : String)
    (hok : ∀ ops bs, render ops = Except.ok bs → bs ≠ [])
    (hfallback : ∀ m : String, ∃ bs, render (errorPdfScript m) = Except.ok bs) :
    (∃ bs, createTranslatedPdf render originalFilename translatedText sourceLang targetLang nowStr
        = Except.ok bs ∧ bs ≠ []) ∧
    (∀ e, render (mainPdfScript originalFilename translatedText sourceLang targetLang nowStr)
        = Except.error e →
      createTranslatedPdf render originalFilename translatedText sourceLang targetLang nowStr
        = render (errorPdfScript (pyErrMsg e))) := by
  cases hm : render (mainPdfScript originalFilename translatedText sourceLang targetLang nowStr) with
  | ok bs =>
    constructor
    · exact ⟨bs, by simp only [createTranslatedPdf, hm], hok _ _ hm⟩
    · intro e he
      exact absurd he (by simp)
  | error e0 =>
    obtain ⟨bs, hbs⟩ := hfallback (pyErrMsg e0)
    constructor
    · refine ⟨bs, ?_, hok _ _ hbs⟩
      simp only [createTranslatedPdf, hm]
      exact hbs
    · intro e he
      injection he with h
      subst h
      simp only [createTranslatedPdf, hm]

theorem createTranslatedPdf_never_raises_witness :
    ∃ bs, createTranslatedPdf okRenderOracle ['f'] [' ', '\n', ' '] "en" "hi" "now"
        = Except.ok bs ∧ bs ≠ [] :=
  (createTranslatedPdf_never_raises okRenderOracle ['f'] [' ', '\n', ' '] "en" "hi" "now"
    (fun _ bs h => by
      injection h with h2
      rw [← h2]
      decide)
    (fun _ => ⟨[37], rfl⟩)).1

end DocTrans
